import Mathlib

/-!
Verification of the rke2-infra validation scripts: a shallow embedding of
`scripts/check_inventory.py` and `scripts/check_ssh_config.py`.

YAML documents are modelled by the inductive type `Doc`; Python's dynamic
dictionary operations (`in`, `[]`, `.get`, `.items()`) are modelled in an
`Except String` monad whose error value stands for an uncaught Python
`TypeError`/`AttributeError` (which terminates the process with a traceback
and exit status 1).
-/

namespace RKE2

/-- A parsed YAML value, as produced by `yaml.safe_load`. -/
inductive Doc where
  | str (s : String)
  | int (n : Int)
  | bool (b : Bool)
  | null
  | dict (es : List (String × Doc))
  | arr (xs : List Doc)
deriving Repr, Inhabited, BEq

/-- First binding of a key in an association list (Python dicts are modelled
as insertion-ordered association lists without duplicate keys). -/
def lookupKey (es : List (String × Doc)) (k : String) : Option Doc :=
  match es with
  | [] => none
  | (k', v) :: rest => if k' = k then some v else lookupKey rest k

/-- Python `isinstance(value, str)`. -/
def Doc.isStr : Doc → Bool
  | .str _ => true
  | _ => false

/-- Python truthiness of a value (`if not hosts:` etc.). -/
def Doc.truthy : Doc → Bool
  | .str s => s ≠ ""
  | .int n => n ≠ 0
  | .bool b => b
  | .null => false
  | .dict es => ¬ es.isEmpty
  | .arr xs => ¬ xs.isEmpty

/-- Is `needle` a contiguous subsequence of `hay`? (Python `sub in s`.) -/
def containsSeq (needle hay : List Char) : Bool :=
  match hay with
  | [] => needle.isEmpty
  | _ :: t => needle.isPrefixOf hay || containsSeq needle t

/-- Python `needle in hay` on strings (substring test). -/
def strContainsSub (hay needle : String) : Bool :=
  containsSeq needle.data hay.data

/-- Python `key in value`: key membership for dicts, element equality for
lists, substring test for strings; `TypeError` for the other scalars. -/
def pyContains (d : Doc) (k : String) : Except String Bool :=
  match d with
  | .dict es => .ok (lookupKey es k).isSome
  | .arr xs => .ok (xs.contains (Doc.str k))
  | .str s => .ok (strContainsSub s k)
  | _ => .error "TypeError: argument of type is not iterable"

/-- Python `value[key]`: dict indexing; `KeyError`/`TypeError` otherwise. -/
def pyIndex (d : Doc) (k : String) : Except String Doc :=
  match d with
  | .dict es =>
      match lookupKey es k with
      | some v => .ok v
      | none => .error "KeyError"
  | _ => .error "TypeError: value is not subscriptable by a string"

/-- Python `value.get(key, default)`: defined on dicts only
(`AttributeError` otherwise). -/
def pyGetD (d : Doc) (k : String) (dflt : Doc) : Except String Doc :=
  match d with
  | .dict es =>
      match lookupKey es k with
      | some v => .ok v
      | none => .ok dflt
  | _ => .error "AttributeError: object has no attribute get"

/-- Python `value.items()`: defined on dicts only. -/
def pyItems (d : Doc) : Except String (List (String × Doc)) :=
  match d with
  | .dict es => .ok es
  | _ => .error "AttributeError: object has no attribute items"

/-! ## Placeholder patterns

Each entry of `PLACEHOLDER_PATTERNS` in the source is a regular expression of
one of two shapes: a bracketed literal, or a bracketed literal with a `\d+`
run in the middle.  `Pat` records the literal text before the digit run
(`pre`), whether a nonempty digit run follows (`mid`), the literal text after
it (`post`), and the regex source text (`src`) that the script reports. -/

structure Pat where
  pre : String
  mid : Bool
  post : String
  src : String
deriving Repr, BEq

/-- The fixed pattern list `PLACEHOLDER_PATTERNS` of check_inventory.py. -/
def PLACEHOLDER_PATTERNS : List Pat :=
  [ ⟨"<BASTION_IP>", false, "", "<BASTION_IP>"⟩,
    ⟨"<MASTER", true, "_IP>", "<MASTER\\d+_IP>"⟩,
    ⟨"<WORKER", true, "_IP>", "<WORKER\\d+_IP>"⟩,
    ⟨"<BASTION_HOSTNAME>", false, "", "<BASTION_HOSTNAME>"⟩,
    ⟨"<MASTER", true, "_HOSTNAME>", "<MASTER\\d+_HOSTNAME>"⟩,
    ⟨"<WORKER", true, "_HOSTNAME>", "<WORKER\\d+_HOSTNAME>"⟩,
    ⟨"<SSH_USER>", false, "", "<SSH_USER>"⟩,
    ⟨"<SSH_KEY_NAME>", false, "", "<SSH_KEY_NAME>"⟩,
    ⟨"<WORKER", true, "_MGMT_IP>", "<WORKER\\d+_MGMT_IP>"⟩,
    ⟨"<WORKER", true, "_DATA_IP>", "<WORKER\\d+_DATA_IP>"⟩ ]

/-- Does the pattern match at the very start of `cs`?  The `\d+` run is
resolved greedily, which is exact here because every `post` begins with a
non-digit character. -/
def patMatchesAt (p : Pat) (cs : List Char) : Bool :=
  p.pre.data.isPrefixOf cs &&
    (if p.mid then
      let rest := cs.drop p.pre.data.length
      let ds := rest.takeWhile Char.isDigit
      ¬ ds.isEmpty && p.post.data.isPrefixOf (rest.drop ds.length)
    else true)

/-- Python `re.search(pattern, value)`: does the pattern match anywhere? -/
def patSearch (p : Pat) (cs : List Char) : Bool :=
  match cs with
  | [] => patMatchesAt p []
  | _ :: t => patMatchesAt p cs || patSearch p t

/-- `check_placeholder` of check_inventory.py: the regex sources of all
patterns found in a string value; non-strings yield no matches. -/
def check_placeholder (v : Doc) : List String :=
  match v with
  | .str s => (PLACEHOLDER_PATTERNS.filter (fun p => patSearch p s.data)).map Pat.src
  | _ => []

/-- One record of `find_placeholders`' result list. -/
structure Finding where
  path : String
  value : Doc
  placeholders : List String
deriving Repr, BEq

mutual

/-- `find_placeholders` of check_inventory.py: recursive scan of the
document, accumulating findings in traversal order. -/
def find_placeholders : Doc → String → List Finding
  | Doc.dict es, path => fpEntries es path
  | Doc.arr xs, path => fpItems xs path 0
  | _, _ => []

/-- The dictionary loop of `find_placeholders`: each value is tested with
`check_placeholder`; a match is recorded, otherwise the scan recurses. -/
def fpEntries : List (String × Doc) → String → List Finding
  | [], _ => []
  | (k, v) :: rest, path =>
      let current_path := if path = "" then k else path ++ "." ++ k
      let ph := check_placeholder v
      (if ph.isEmpty then find_placeholders v current_path
       else [⟨current_path, v, ph⟩]) ++ fpEntries rest path

/-- The list loop of `find_placeholders`: items are recursed into (but not
themselves tested) with index-bracketed paths. -/
def fpItems : List Doc → String → Nat → List Finding
  | [], _, _ => []
  | x :: rest, path, i =>
      let current_path := path ++ "[" ++ toString i ++ "]"
      find_placeholders x current_path ++ fpItems rest path (i + 1)

end

/-! ## The Python `ipaddress` module (the parsing fragment used here)

`validate_ip_address` calls `ipaddress.ip_address`, and `validate_ip_network`
calls `ipaddress.ip_network(..., strict=False)`; both only observe whether
parsing succeeds.  The definitions below model CPython's `ipaddress`
string-parsing code (`_parse_octet`, IPv4/IPv6 `_ip_int_from_string`,
`_split_scope_id`, `_split_addr_prefix`, `_make_netmask`,
`_prefix_from_prefix_string`, `_prefix_from_ip_string`). -/

/-- Python `str.split(sep)` for a single-character separator (an empty
string yields one empty field). -/
def splitOnChar (sep : Char) : List Char → List (List Char)
  | [] => [[]]
  | c :: cs =>
      let r := splitOnChar sep cs
      if c = sep then [] :: r
      else
        match r with
        | [] => [[c]]
        | h :: t => (c :: h) :: t

/-- Decimal value of a digit list (callers have checked the digits). -/
def decVal (cs : List Char) : Nat :=
  cs.foldl (fun a c => a * 10 + (c.toNat - 48)) 0

/-- Membership of Python's `_HEX_DIGITS` set. -/
def isHexChar (c : Char) : Bool :=
  c.isDigit || ('a' ≤ c && c ≤ 'f') || ('A' ≤ c && c ≤ 'F')

/-- Value of one hexadecimal digit. -/
def hexDigVal (c : Char) : Nat :=
  if c.isDigit then c.toNat - 48
  else if 'a' ≤ c && c ≤ 'f' then c.toNat - 87
  else c.toNat - 55

/-- Hexadecimal value of a hex-digit list. -/
def hexVal (cs : List Char) : Nat :=
  cs.foldl (fun a c => a * 16 + hexDigVal c) 0

/-- CPython `IPv4Address._parse_octet`: nonempty, ASCII digits only, at most
3 characters, no leading zeros, at most 255. -/
def parse_octet (cs : List Char) : Option Nat :=
  if cs.isEmpty then none
  else if ¬ cs.all Char.isDigit then none
  else if 3 < cs.length then none
  else if cs ≠ ['0'] && cs.head? = some '0' then none
  else if 255 < decVal cs then none
  else some (decVal cs)

/-- CPython `IPv4Address._ip_int_from_string`: exactly four octets joined by
dots. -/
def ipv4_int_from_string (cs : List Char) : Option Nat :=
  match splitOnChar '.' cs with
  | [a, b, c, d] => do
      let x ← parse_octet a
      let y ← parse_octet b
      let z ← parse_octet c
      let w ← parse_octet d
      pure (((x * 256 + y) * 256 + z) * 256 + w)
  | _ => none

/-- CPython `IPv4Address.__init__` on a string: rejects a slash, then parses
the dotted quad. -/
def parseIPv4Address (cs : List Char) : Option Nat :=
  if cs.contains '/' then none else ipv4_int_from_string cs

/-- An IPv6 hextet field: raw text from the split, or a numeric field
substituted for an embedded IPv4 suffix. -/
inductive Hext where
  | raw (cs : List Char)
  | num (n : Nat)
deriving Repr, BEq

/-- CPython `IPv6Address._parse_hextet`: hex digits only, 1 to 4 of them. -/
def parse_hextet : Hext → Option Nat
  | .raw cs =>
      if ¬ cs.all isHexChar then none
      else if 4 < cs.length then none
      else if cs.isEmpty then none
      else some (hexVal cs)
  | .num n => some n

/-- Is this field an empty text field (one side of a `::`)? -/
def hextEmpty : Hext → Bool
  | .raw [] => true
  | _ => false

/-- CPython `IPv6Address._ip_int_from_string` (scope already stripped). -/
def ipv6_int_from_string (cs : List Char) : Option Nat :=
  let parts0 := splitOnChar ':' cs
  if parts0.length < 3 then none
  else
    let parts? : Option (List Hext) :=
      match parts0.getLast? with
      | some last =>
          if last.contains '.' then
            match parseIPv4Address last with
            | some v4 => some (parts0.dropLast.map Hext.raw ++
                [Hext.num (v4 / 65536 % 65536), Hext.num (v4 % 65536)])
            | none => none
          else some (parts0.map Hext.raw)
      | none => none
    match parts? with
    | none => none
    | some parts =>
      if 9 < parts.length then none
      else
        let inner := (parts.drop 1).dropLast
        let emptyCount := (inner.filter hextEmpty).length
        if 2 ≤ emptyCount then none
        else
          let firstEmpty := match parts.head? with
            | some h => hextEmpty h
            | none => false
          let lastEmpty := match parts.getLast? with
            | some h => hextEmpty h
            | none => false
          if emptyCount = 1 then
            let skipIdx := 1 + inner.findIdx (fun h => hextEmpty h)
            let hi0 := skipIdx
            let lo0 := parts.length - skipIdx - 1
            if firstEmpty && ¬ (hi0 - 1 = 0) then none
            else if lastEmpty && ¬ (lo0 - 1 = 0) then none
            else
              let hi := if firstEmpty then hi0 - 1 else hi0
              let lo := if lastEmpty then lo0 - 1 else lo0
              if 8 - (hi + lo) < 1 then none
              else do
                let hiVals ← (parts.take hi).mapM parse_hextet
                let loVals ← (parts.drop (parts.length - lo)).mapM parse_hextet
                let hiInt := hiVals.foldl (fun a v => a * 65536 + v) 0
                pure (hiInt * 65536 ^ (8 - (hi + lo)) * 65536 ^ lo +
                  loVals.foldl (fun a v => a * 65536 + v) 0)
          else
            if parts.length ≠ 8 then none
            else if firstEmpty then none
            else if lastEmpty then none
            else do
              let vals ← parts.mapM parse_hextet
              pure (vals.foldl (fun a v => a * 65536 + v) 0)

/-- First occurrence split, Python `str.partition(sep)` (separator found or
not). -/
def splitFirst (sep : Char) : List Char → List Char × Option (List Char)
  | [] => ([], none)
  | c :: cs =>
      if c = sep then ([], some cs)
      else
        let r := splitFirst sep cs
        (c :: r.1, r.2)

/-- CPython `IPv6Address.__init__` on a string: rejects a slash, strips an
optional nonempty `%scope` suffix, then parses. -/
def parseIPv6Address (cs : List Char) : Option Nat :=
  if cs.contains '/' then none
  else
    match splitFirst '%' cs with
    | (addr, none) => ipv6_int_from_string addr
    | (addr, some scope) =>
        if scope.isEmpty || scope.contains '%' then none
        else ipv6_int_from_string addr

/-- Is `n` of netmask shape (ones then zeroes) in `w` bits?  CPython
`_prefix_from_ip_int` succeeds exactly on these values. -/
def isNetmaskInt (w : Nat) (n : Nat) : Bool :=
  (List.range (w + 1)).any (fun p => n = (2 ^ p - 1) * 2 ^ (w - p))

/-- CPython `_prefix_from_prefix_string` with maximum `w`: ASCII digits
only, value at most `w`. -/
def prefixFromPrefixString (w : Nat) (cs : List Char) : Option Nat :=
  if ¬ cs.isEmpty && cs.all Char.isDigit then
    if decVal cs ≤ w then some (decVal cs) else none
  else none

/-- CPython `IPv4Network._make_netmask` on a string: a prefix length, or a
dotted netmask/hostmask. -/
def makeNetmask4 (cs : List Char) : Bool :=
  match prefixFromPrefixString 32 cs with
  | some _ => true
  | none =>
      match ipv4_int_from_string cs with
      | none => false
      | some n => isNetmaskInt 32 n || isNetmaskInt 32 (2 ^ 32 - 1 - n)

/-- CPython `IPv4Network(s, strict=False)` succeeds (split on `/`, at most
one slash; with `strict=False` host bits are never checked). -/
def parseIPv4NetworkOk (s : List Char) : Bool :=
  match splitOnChar '/' s with
  | [a] => (parseIPv4Address a).isSome
  | [a, p] => (parseIPv4Address a).isSome && makeNetmask4 p
  | _ => false

/-- CPython `IPv6Network._make_netmask` on a string: prefix length only. -/
def makeNetmask6 (cs : List Char) : Bool :=
  (prefixFromPrefixString 128 cs).isSome

/-- CPython `IPv6Network(s, strict=False)` succeeds. -/
def parseIPv6NetworkOk (s : List Char) : Bool :=
  match splitOnChar '/' s with
  | [a] => (parseIPv6Address a).isSome
  | [a, p] => (parseIPv6Address a).isSome && makeNetmask6 p
  | _ => false

/-- `validate_ip_address` of check_inventory.py: `ip_address(ip_str)` tries
IPv4 then IPv6 and the validator reports whether one succeeded. -/
def validate_ip_address (s : String) : Bool :=
  (parseIPv4Address s.data).isSome || (parseIPv6Address s.data).isSome

/-- `validate_ip_network` of check_inventory.py: `ip_network(network_str,
strict=False)` tries IPv4 then IPv6 networks. -/
def validate_ip_network (s : String) : Bool :=
  parseIPv4NetworkOk s.data || parseIPv6NetworkOk s.data

/-! ## Structural validation (`validate_inventory_structure`) -/

/-- `REQUIRED_GROUPS` of check_inventory.py. -/
def REQUIRED_GROUPS : List String := ["bastion", "masters", "workers"]

/-- `REQUIRED_VARS` of check_inventory.py. -/
def REQUIRED_VARS : List String :=
  ["ansible_python_interpreter", "control_vlan_network", "control_vlan_gateway",
   "data_vlan_network", "data_vlan_gateway", "lb_vip_control", "lb_vip_data"]

/-- `REQUIRED_HOST_FIELDS` of check_inventory.py, as a lookup by host type. -/
def REQUIRED_HOST_FIELDS (host_type : String) : List String :=
  if host_type = "bastion" then
    ["ansible_host", "ansible_hostname", "ansible_user",
     "ansible_ssh_private_key_file", "internal_ip"]
  else if host_type = "master" then
    ["ansible_host", "ansible_hostname", "ansible_user",
     "ansible_ssh_private_key_file"]
  else if host_type = "worker" then
    ["ansible_host", "ansible_hostname", "ansible_user",
     "ansible_ssh_private_key_file", "mgmt_ip", "prod_data_ip"]
  else []

/-- The `if/elif` chain mapping a group name to its host type (the trailing
`else: continue` is unreachable, the loop only visits the three groups). -/
def hostTypeOf (group : String) : Option String :=
  if group = "bastion" then some "bastion"
  else if group = "masters" then some "master"
  else if group = "workers" then some "worker"
  else none

/-- The per-host field check inside the group loop: one error per missing
required field. -/
def checkHostFields (group host_name : String) (host_vars : Doc) :
    Except String (List String) :=
  match hostTypeOf group with
  | none => .ok []
  | some ht =>
      (REQUIRED_HOST_FIELDS ht).foldlM (fun acc f => do
        let present ← pyContains host_vars f
        pure (if present then acc
          else acc ++ ["Host '" ++ host_name ++ "' (" ++ group ++
            ") missing required field: " ++ f])) []

/-- One iteration of the group loop of `validate_inventory_structure`:
missing group or missing `hosts` records an error, an empty (falsy) `hosts`
records a warning, otherwise every host is checked. -/
def checkGroup (children : Doc) (group : String) :
    Except String (List String × List String) := do
  let present ← pyContains children group
  if ¬ present then
    pure (["Missing required group: " ++ group], [])
  else
    let group_section ← pyIndex children group
    let hasHosts ← pyContains group_section "hosts"
    if ¬ hasHosts then
      pure (["Missing 'hosts' section in group '" ++ group ++ "'"], [])
    else
      let hosts ← pyIndex group_section "hosts"
      if ¬ hosts.truthy then
        pure ([], ["Group '" ++ group ++ "' has no hosts defined"])
      else do
        let items ← pyItems hosts
        let errs ← items.foldlM (fun acc kv => do
          let e ← checkHostFields group kv.1 kv.2
          pure (acc ++ e)) []
        pure (errs, [])

/-- `validate_inventory_structure` of check_inventory.py. -/
def validate_inventory_structure (inventory : Doc) :
    Except String (List String × List String) := do
  let hasAll ← pyContains inventory "all"
  if ¬ hasAll then
    pure (["Missing 'all' section at top level"], [])
  else
    let all_section ← pyIndex inventory "all"
    let hasVars ← pyContains all_section "vars"
    let varErrs ←
      if ¬ hasVars then
        pure ["Missing 'vars' section in 'all'"]
      else do
        let vars_section ← pyIndex all_section "vars"
        REQUIRED_VARS.foldlM (fun acc v => do
          let present ← pyContains vars_section v
          pure (if present then acc
            else acc ++ ["Missing required variable: " ++ v])) []
    let hasChildren ← pyContains all_section "children"
    if ¬ hasChildren then
      pure (varErrs ++ ["Missing 'children' section in 'all'"], [])
    else do
      let children ← pyIndex all_section "children"
      REQUIRED_GROUPS.foldlM (fun acc g => do
        let p ← checkGroup children g
        pure (acc.1 ++ p.1, acc.2 ++ p.2)) (varErrs, [])

/-! ## Semantic IP-format validation (`validate_ip_addresses`) -/

/-- The `network_vars` list of `validate_ip_addresses`. -/
def network_vars : List String := ["control_vlan_network", "data_vlan_network"]

/-- The `ip_vars` list of `validate_ip_addresses`. -/
def ip_vars : List String :=
  ["control_vlan_gateway", "data_vlan_gateway", "lb_vip_control", "lb_vip_data"]

/-- One variable of the `network_vars` loop: present, string-valued and
failing `validate_ip_network` yields one error. -/
def checkNetVar (vars_section : Doc) (var : String) :
    Except String (List String) := do
  let present ← pyContains vars_section var
  if present then
    let value ← pyIndex vars_section var
    match value with
    | .str s =>
        if ¬ validate_ip_network s then
          pure ["Invalid network format in " ++ var ++ ": " ++ s]
        else pure []
    | _ => pure []
  else pure []

/-- One variable of the `ip_vars` loop. -/
def checkIpVar (vars_section : Doc) (var : String) :
    Except String (List String) := do
  let present ← pyContains vars_section var
  if present then
    let value ← pyIndex vars_section var
    match value with
    | .str s =>
        if ¬ validate_ip_address s then
          pure ["Invalid IP address format in " ++ var ++ ": " ++ s]
        else pure []
    | _ => pure []
  else pure []

/-- One address-bearing host field: present, string-valued and failing
`validate_ip_address` yields one error. -/
def checkHostIpField (host_name : String) (host_vars : Doc) (field : String) :
    Except String (List String) := do
  let present ← pyContains host_vars field
  if present then
    let ip ← pyIndex host_vars field
    match ip with
    | .str s =>
        if ¬ validate_ip_address s then
          pure ["Invalid IP address in " ++ host_name ++ "." ++ field ++ ": " ++ s]
        else pure []
    | _ => pure []
  else pure []

/-- The per-host body of the host loop of `validate_ip_addresses`:
`ansible_host`, `internal_ip`, then `mgmt_ip` and `prod_data_ip`. -/
def hostIpErrs (host_name : String) (host_vars : Doc) :
    Except String (List String) := do
  let e1 ← checkHostIpField host_name host_vars "ansible_host"
  let e2 ← checkHostIpField host_name host_vars "internal_ip"
  let e3 ← checkHostIpField host_name host_vars "mgmt_ip"
  let e4 ← checkHostIpField host_name host_vars "prod_data_ip"
  pure (e1 ++ e2 ++ e3 ++ e4)

/-- One group of the host loop of `validate_ip_addresses`: groups without a
`hosts` key are skipped. -/
def groupIpErrs (group_section : Doc) : Except String (List String) := do
  let hasHosts ← pyContains group_section "hosts"
  if ¬ hasHosts then pure []
  else do
    let hosts ← pyIndex group_section "hosts"
    let items ← pyItems hosts
    items.foldlM (fun acc kv => do
      let e ← hostIpErrs kv.1 kv.2
      pure (acc ++ e)) []

/-- `validate_ip_addresses` of check_inventory.py. -/
def validate_ip_addresses (inventory : Doc) :
    Except String (List String × List String) := do
  let all_section ← pyGetD inventory "all" (Doc.dict [])
  let children ← pyGetD all_section "children" (Doc.dict [])
  let vars_section ← pyGetD all_section "vars" (Doc.dict [])
  let netErrs ← network_vars.foldlM (fun acc v => do
    let e ← checkNetVar vars_section v
    pure (acc ++ e)) []
  let ipVarErrs ← ip_vars.foldlM (fun acc v => do
    let e ← checkIpVar vars_section v
    pure (acc ++ e)) []
  let groupItems ← pyItems children
  let hostErrs ← groupItems.foldlM (fun acc kv => do
    let e ← groupIpErrs kv.2
    pure (acc ++ e)) []
  pure (netErrs ++ ipVarErrs ++ hostErrs, [])

/-! ## The inventory validator's `main` -/

/-- What one run of check_inventory.py's `main` reports once the document is
parsed: the exit code, the placeholder findings, the structural errors and
warnings, and the semantic IP errors it reported (empty when the semantic
pass was skipped). -/
structure InvReport where
  exitCode : Nat
  placeholders : List Finding
  structureErrors : List String
  structureWarnings : List String
  ipErrors : List String
deriving Repr, BEq

/-- `main` of check_inventory.py on a parsed document: structural check,
placeholder scan, semantic pass only when no placeholders were found, and
the summary exit code. -/
def inv_main (inventory : Doc) : Except String InvReport := do
  let sres ← validate_inventory_structure inventory
  let placeholders := find_placeholders inventory ""
  let ipErrs ←
    if placeholders.isEmpty then do
      let r ← validate_ip_addresses inventory
      pure r.1
    else pure []
  let total := sres.1.length + ipErrs.length
  let code := if total = 0 && placeholders.isEmpty then 0 else 1
  pure ⟨code, placeholders, sres.1, sres.2, ipErrs⟩

/-- The process exit status of a run of check_inventory.py on a parsed
document: an uncaught exception also terminates with status 1. -/
def inv_exit_code (inventory : Doc) : Nat :=
  match inv_main inventory with
  | .ok r => r.exitCode
  | .error _ => 1

/-- The semantic IP-format errors a run reports (none when the pass was
skipped or the run died on an exception before reporting them). -/
def inv_reported_ip_errors (inventory : Doc) : List String :=
  match inv_main inventory with
  | .ok r => r.ipErrors
  | .error _ => []

/-! ## The SSH trust checker (`check_ssh_config.py`)

Filesystem state and the outcomes of the `ssh` / `ssh-keygen` subprocess
invocations are inputs of the model; the script's own control flow is
translated from the source. -/

/-- One target host record built by `get_target_hosts`
(`{'name': ..., 'ip': ..., 'type': ...}`). -/
structure Target where
  name : String
  ip : Doc
  htype : String
deriving Repr, BEq

/-- The body shared by the two group scans of `get_target_hosts`: hosts of
one group carrying an `ansible_host`, in mapping order. -/
def collectGroup (inventory : Doc) (group htype : String) :
    Except String (List Target) := do
  let all_section ← pyGetD inventory "all" (Doc.dict [])
  let children ← pyGetD all_section "children" (Doc.dict [])
  let present ← pyContains children group
  if ¬ present then pure []
  else do
    let allv ← pyIndex inventory "all"
    let ch ← pyIndex allv "children"
    let gsec ← pyIndex ch group
    let hosts ← pyGetD gsec "hosts" (Doc.dict [])
    let items ← pyItems hosts
    items.foldlM (fun acc kv => do
      let hasIp ← pyContains kv.2 "ansible_host"
      if hasIp then do
        let ip ← pyIndex kv.2 "ansible_host"
        pure (acc ++ [⟨kv.1, ip, htype⟩])
      else pure acc) []

/-- `get_target_hosts` of check_ssh_config.py: masters then workers. -/
def get_target_hosts (inventory : Doc) : Except String (List Target) := do
  let m ← collectGroup inventory "masters" "master"
  let w ← collectGroup inventory "workers" "worker"
  pure (m ++ w)

/-- Outcome of one `subprocess.run` of the remote `ssh` command in
`check_public_key_in_authorized_keys`. -/
inductive SshAttempt where
  | completed (returncode : Int) (stdout : String)
  | timedOut
  | raised (msg : String)
deriving Repr, BEq

/-- `check_public_key_in_authorized_keys` of check_ssh_config.py as a
function of the subprocess outcome: `(found, error_message)`. -/
def check_public_key_in_authorized_keys (a : SshAttempt) : Bool × Option String :=
  match a with
  | .completed rc out =>
      if rc = 0 && strContainsSub out "FOUND" then (true, none)
      else if rc = 0 && strContainsSub out "NOT_FOUND" then
        (false, some "Public key not found in authorized_keys")
      else (false, some ("SSH connection failed (return code: " ++ toString rc ++ ")"))
  | .timedOut => (false, some "SSH connection timeout")
  | .raised m => (false, some ("Error: " ++ m))

/-- Outcome of one `subprocess.run` of `ssh-keygen -F` in
`get_host_key_from_known_hosts`. -/
inductive KeygenAttempt where
  | completed (returncode : Int)
  | timedOut
  | raised
deriving Repr, BEq

/-- `get_host_key_from_known_hosts` of check_ssh_config.py: false when the
known_hosts file is missing, otherwise success of `ssh-keygen -F`. -/
def get_host_key_from_known_hosts (fileExists : Bool) (r : KeygenAttempt) : Bool :=
  fileExists &&
    match r with
    | .completed rc => rc = 0
    | .timedOut => false
    | .raised => false

/-- How a run of check_ssh_config.py's `main` ends. -/
inductive SshOutcome where
  /-- `sys.exit(1)` before the per-host checks: the private key file is
  missing. -/
  | privateKeyNotFound
  /-- `sys.exit(1)` before the per-host checks: no master or worker host
  carries an `ansible_host`. -/
  | noTargets
  /-- `sys.exit(1)` before the per-host checks: the sibling `.pub` file is
  missing (or unreadable, or its stripped content is falsy). -/
  | publicKeyFailed
  /-- Both per-host checks ran over all targets; the hosts failing each
  check were collected in order. -/
  | checked (targets failedAuth missingKeys : List Target)
deriving Repr, BEq

/-- `main` of check_ssh_config.py on a parsed inventory.
`privateKeyExists` and `knownHostsExists` model `os.path.exists`;
`pubFileContent` is the `.pub` sibling's content (`none` when absent);
`auth` and `keygen` give each host's subprocess outcome. -/
def ssh_main (privateKeyExists : Bool) (pubFileContent : Option String)
    (inventory : Doc) (auth : Target → SshAttempt)
    (knownHostsExists : Bool) (keygen : Target → KeygenAttempt) :
    Except String SshOutcome := do
  if ¬ privateKeyExists then pure .privateKeyNotFound
  else do
    let targets ← get_target_hosts inventory
    if targets.isEmpty then pure .noTargets
    else
      match pubFileContent with
      | none => pure .publicKeyFailed
      | some content =>
          let public_key := content.trim
          if public_key = "" then pure .publicKeyFailed
          else
            let failedAuth := targets.filter
              (fun t => ¬ (check_public_key_in_authorized_keys (auth t)).1)
            let missingKeys := targets.filter
              (fun t => ¬ get_host_key_from_known_hosts knownHostsExists (keygen t))
            pure (.checked targets failedAuth missingKeys)

/-- The exit status of a run of check_ssh_config.py: 0 only when every
target passed both checks. -/
def ssh_exit_code (o : Except String SshOutcome) : Nat :=
  match o with
  | .ok (.checked _ failedAuth missingKeys) =>
      if failedAuth.isEmpty && missingKeys.isEmpty then 0 else 1
  | _ => 1

/-! ## The spec's notion of a placeholder occurring anywhere -/

mutual

/-- Modelled from the spec: "a placeholder token is present anywhere in the
document" — some string-valued leaf, including string items of sequences,
matches one of the placeholder patterns. -/
def specHasPlaceholderToken : Doc → Bool
  | .str s => ¬ (check_placeholder (Doc.str s)).isEmpty
  | .dict es => specEntriesHaveToken es
  | .arr xs => specItemsHaveToken xs
  | _ => false

/-- Does some dictionary value hold a placeholder token? -/
def specEntriesHaveToken : List (String × Doc) → Bool
  | [] => false
  | (_, v) :: rest => specHasPlaceholderToken v || specEntriesHaveToken rest

/-- Does some sequence item hold a placeholder token? -/
def specItemsHaveToken : List Doc → Bool
  | [] => false
  | x :: rest => specHasPlaceholderToken x || specItemsHaveToken rest

end

/-! ## Concrete documents used as witnesses and counterexamples -/

/-- A `vars` section carrying all required variables with valid values. -/
def validVars : List (String × Doc) :=
  [("ansible_python_interpreter", Doc.str "/usr/bin/python3"),
   ("control_vlan_network", Doc.str "10.0.0.0/24"),
   ("control_vlan_gateway", Doc.str "10.0.0.1"),
   ("data_vlan_network", Doc.str "10.1.0.0/24"),
   ("data_vlan_gateway", Doc.str "10.1.0.1"),
   ("lb_vip_control", Doc.str "10.0.0.100"),
   ("lb_vip_data", Doc.str "10.1.0.100")]

/-- A complete bastion host record. -/
def bastionHost : Doc := Doc.dict
  [("ansible_host", Doc.str "10.0.0.2"), ("ansible_hostname", Doc.str "bastion1"),
   ("ansible_user", Doc.str "ubuntu"), ("ansible_ssh_private_key_file", Doc.str "id_rsa"),
   ("internal_ip", Doc.str "10.0.0.3")]

/-- A complete master host record. -/
def masterHost : Doc := Doc.dict
  [("ansible_host", Doc.str "10.0.0.4"), ("ansible_hostname", Doc.str "master1"),
   ("ansible_user", Doc.str "ubuntu"), ("ansible_ssh_private_key_file", Doc.str "id_rsa")]

/-- A complete worker host record. -/
def workerHost : Doc := Doc.dict
  [("ansible_host", Doc.str "10.0.0.5"), ("ansible_hostname", Doc.str "worker1"),
   ("ansible_user", Doc.str "ubuntu"), ("ansible_ssh_private_key_file", Doc.str "id_rsa"),
   ("mgmt_ip", Doc.str "10.0.0.6"), ("prod_data_ip", Doc.str "10.1.0.6")]

/-- A `children` section with all three groups fully populated. -/
def goodChildren : List (String × Doc) :=
  [("bastion", Doc.dict [("hosts", Doc.dict [("bastion1", bastionHost)])]),
   ("masters", Doc.dict [("hosts", Doc.dict [("master1", masterHost)])]),
   ("workers", Doc.dict [("hosts", Doc.dict [("worker1", workerHost)])])]

/-- A fully valid inventory document. -/
def validInventory : Doc :=
  Doc.dict [("all", Doc.dict [("vars", Doc.dict validVars),
    ("children", Doc.dict goodChildren)])]

/-- A valid inventory with one extra key whose value is a sequence holding a
placeholder string. -/
def seqPlaceholderInventory : Doc :=
  Doc.dict [("all", Doc.dict [("vars", Doc.dict validVars),
    ("children", Doc.dict goodChildren)]),
    ("extra", Doc.arr [Doc.str "<BASTION_IP>"])]

/-! ## Reduction lemmas for the `Except` monad -/

@[simp]
theorem except_bind_ok {α β : Type} (a : α) (f : α → Except String β) :
    (Except.ok a : Except String α) >>= f = f a := rfl

@[simp]
theorem except_bind_error {α β : Type} (e : String) (f : α → Except String β) :
    (Except.error e : Except String α) >>= f = Except.error e := rfl

@[simp]
theorem except_map_ok {α β : Type} (a : α) (f : α → β) :
    f <$> (Except.ok a : Except String α) = Except.ok (f a) := rfl

@[simp]
theorem except_map_error {α β : Type} (e : String) (f : α → β) :
    f <$> (Except.error e : Except String α) = Except.error e := rfl

/-- A valid inventory whose `workers` group has an empty `hosts` mapping. -/
def warnInventory : Doc :=
  Doc.dict [("all", Doc.dict [("vars", Doc.dict validVars),
    ("children", Doc.dict
      [("bastion", Doc.dict [("hosts", Doc.dict [("bastion1", bastionHost)])]),
       ("masters", Doc.dict [("hosts", Doc.dict [("master1", masterHost)])]),
       ("workers", Doc.dict [("hosts", Doc.dict [])])])])]

/-! ## Claim theorems -/

/-- C4: for every document (a mapping) lacking the top-level `all` key, the
structural validator returns exactly the one missing-`all` error and no
warnings, short-circuiting all remaining structural checks. -/
theorem C4_missing_all (es : List (String × Doc)) (h : lookupKey es "all" = none) :
    validate_inventory_structure (Doc.dict es) =
      .ok (["Missing 'all' section at top level"], []) := by
  unfold validate_inventory_structure
  rw [show pyContains (Doc.dict es) "all" = Except.ok false by simp [pyContains, h]]
  rfl

/-- C4 witness: a concrete document without `all`. -/
theorem C4_missing_all_witness :
    validate_inventory_structure (Doc.dict [("x", Doc.null)]) =
      .ok (["Missing 'all' section at top level"], []) :=
  C4_missing_all [("x", Doc.null)] rfl

/-- C3 (amended): whenever the placeholder scan reports at least one finding,
the run exits with status 1 and reports no semantic IP-format errors (the
semantic pass is skipped), regardless of the rest of the document. -/
theorem C3_scan_findings_skip_semantic (inventory : Doc)
    (h : find_placeholders inventory "" ≠ []) :
    inv_exit_code inventory = 1 ∧ inv_reported_ip_errors inventory = [] := by
  have hb : (find_placeholders inventory "").isEmpty = false := by
    cases hfp : find_placeholders inventory "" with
    | nil => exact absurd hfp h
    | cons a l => rfl
  unfold inv_exit_code inv_reported_ip_errors
  cases hs : validate_inventory_structure inventory with
  | error e => simp [inv_main, hs]
  | ok p => simp [inv_main, hs, hb]

/-- C3 witness: a document whose scan finds a placeholder exits 1 with no
IP-format errors. -/
theorem C3_scan_findings_skip_semantic_witness :
    inv_exit_code (Doc.dict [("a", Doc.str "<SSH_USER>")]) = 1 ∧
    inv_reported_ip_errors (Doc.dict [("a", Doc.str "<SSH_USER>")]) = [] :=
  C3_scan_findings_skip_semantic (Doc.dict [("a", Doc.str "<SSH_USER>")])
    (List.cons_ne_nil _ _)

/-- C3 counterexample: a placeholder token occurring inside a sequence is
missed by the scan, so an otherwise valid document containing one exits with
status 0 — the claim's "exits 1 for every document with a placeholder token
anywhere" fails. -/
theorem C3_counterexample :
    specHasPlaceholderToken seqPlaceholderInventory = true ∧
    inv_exit_code seqPlaceholderInventory = 0 := ⟨rfl, rfl⟩

/-- C7: the authorized-keys check treats a remote reply of `NOT_FOUND` as
success, because the Python test `'FOUND' in result.stdout` is a substring
test and `FOUND` is a substring of `NOT_FOUND`; the key-absent branch of the
source is unreachable, contradicting the claim (and the code's own
dead branch). -/
theorem C7_not_found_reported_as_found :
    check_public_key_in_authorized_keys (SshAttempt.completed 0 "NOT_FOUND\n") =
      (true, none) ∧
    strContainsSub "NOT_FOUND\n" "FOUND" = true := ⟨rfl, rfl⟩

/-- C2 counterexample: with an existing private key and a missing sibling
public-key file but an inventory without target hosts, the run fails on the
empty target list, not on the missing public key — the inventory is loaded
and the targets are extracted before the public key is derived. -/
theorem C2_counterexample :
    ssh_main true none (Doc.dict []) (fun _ => SshAttempt.timedOut) false
      (fun _ => KeygenAttempt.raised) = .ok SshOutcome.noTargets ∧
    (Except.ok SshOutcome.noTargets : Except String SshOutcome) ≠
      .ok SshOutcome.publicKeyFailed := ⟨rfl, by simp⟩

/-- C2 (amended): the checker validates the private key, then loads the
inventory and extracts the targets (failing fatally when that list is
empty), and only then derives the public key; hence every run with an
existing private key, a missing sibling public-key file and a non-empty
target list exits with status 1 on the public-key failure. -/
theorem C2_pubkey_checked_after_targets (inventory : Doc) (ts : List Target)
    (auth : Target → SshAttempt) (khE : Bool) (kg : Target → KeygenAttempt)
    (h1 : get_target_hosts inventory = .ok ts) (h2 : ts ≠ []) :
    ssh_main true none inventory auth khE kg = .ok SshOutcome.publicKeyFailed ∧
    ssh_exit_code (ssh_main true none inventory auth khE kg) = 1 := by
  have hne : ts.isEmpty = false := by
    cases ts with
    | nil => exact absurd rfl h2
    | cons a l => rfl
  have hmain : ssh_main true none inventory auth khE kg = .ok .publicKeyFailed := by
    unfold ssh_main
    simp [h1, hne]
    rfl
  exact ⟨hmain, by rw [hmain]; rfl⟩

/-- C2 witness: a populated inventory with a missing public-key file fails on
the public key with exit status 1. -/
theorem C2_pubkey_checked_after_targets_witness :
    ssh_main true none validInventory (fun _ => SshAttempt.timedOut) false
      (fun _ => KeygenAttempt.raised) = .ok SshOutcome.publicKeyFailed ∧
    ssh_exit_code (ssh_main true none validInventory (fun _ => SshAttempt.timedOut)
      false (fun _ => KeygenAttempt.raised)) = 1 :=
  C2_pubkey_checked_after_targets validInventory
    [⟨"master1", Doc.str "10.0.0.4", "master"⟩, ⟨"worker1", Doc.str "10.0.0.5", "worker"⟩]
    (fun _ => SshAttempt.timedOut) false (fun _ => KeygenAttempt.raised)
    rfl (List.cons_ne_nil _ _)

/-- C8: warnings never make the validator fail — a run with no structural
errors, some warnings, no placeholder findings and no IP-format errors exits
with status 0. -/
theorem C8_warnings_dont_fail (inventory : Doc) (ws iw : List String)
    (h1 : validate_inventory_structure inventory = .ok ([], ws))
    (h2 : ws ≠ [])
    (h3 : find_placeholders inventory "" = [])
    (h4 : validate_ip_addresses inventory = .ok ([], iw)) :
    inv_exit_code inventory = 0 := by
  unfold inv_exit_code
  simp [inv_main, h1, h3, h4]

/-- C8 witness: the empty `workers` group produces a warning and the run
still exits 0. -/
theorem C8_warnings_dont_fail_witness : inv_exit_code warnInventory = 0 :=
  C8_warnings_dont_fail warnInventory ["Group 'workers' has no hosts defined"] []
    rfl (List.cons_ne_nil _ _) rfl rfl


/-- A finding is sound. -/
def soundFinding (f : Finding) : Prop :=
  f.value.isStr = true ∧ f.placeholders = check_placeholder f.value ∧ f.placeholders ≠ []

theorem check_placeholder_ne_nil_isStr (v : Doc) (h : check_placeholder v ≠ []) :
    v.isStr = true := by
  cases v <;> first | rfl | exact absurd rfl h

mutual

theorem fp_sound : ∀ (d : Doc) (path : String) (f : Finding),
    f ∈ find_placeholders d path → soundFinding f
  | Doc.dict es, path, f, hf => fpEntries_sound es path f hf
  | Doc.arr xs, path, f, hf => fpItems_sound xs path 0 f hf
  | Doc.str _, _, _, hf => absurd hf (by simp [find_placeholders])
  | Doc.int _, _, _, hf => absurd hf (by simp [find_placeholders])
  | Doc.bool _, _, _, hf => absurd hf (by simp [find_placeholders])
  | Doc.null, _, _, hf => absurd hf (by simp [find_placeholders])

theorem fpEntries_sound : ∀ (es : List (String × Doc)) (path : String) (f : Finding),
    f ∈ fpEntries es path → soundFinding f
  | [], _, _, hf => absurd hf (by simp [fpEntries])
  | (k, v) :: rest, path, f, hf => by
      rw [fpEntries] at hf
      rcases List.mem_append.mp hf with h1 | h2
      · by_cases hph : (check_placeholder v).isEmpty
        · rw [if_pos hph] at h1
          exact fp_sound v _ f h1
        · rw [if_neg hph] at h1
          have hne : check_placeholder v ≠ [] := by
            cases hcp : check_placeholder v with
            | nil => rw [hcp] at hph; exact absurd rfl hph
            | cons a l => exact List.cons_ne_nil a l
          rcases List.mem_singleton.mp h1 with rfl
          exact ⟨check_placeholder_ne_nil_isStr v hne, rfl, hne⟩
      · exact fpEntries_sound rest path f h2

theorem fpItems_sound : ∀ (xs : List Doc) (path : String) (i : Nat) (f : Finding),
    f ∈ fpItems xs path i → soundFinding f
  | [], _, _, _, hf => absurd hf (by simp [fpItems])
  | x :: rest, path, i, f, hf => by
      rw [fpItems] at hf
      rcases List.mem_append.mp hf with h1 | h2
      · exact fp_sound x _ f h1
      · exact fpItems_sound rest path (i + 1) f h2

end

theorem fpItems_all_strings : ∀ (xs : List Doc) (path : String) (i : Nat),
    (∀ x ∈ xs, x.isStr = true) → fpItems xs path i = []
  | [], _, _, _ => by simp [fpItems]
  | x :: rest, path, i, h => by
      have hx := h x (by simp)
      have hrest := fpItems_all_strings rest path (i + 1) (fun y hy => h y (by simp [hy]))
      cases x <;> simp_all [fpItems, find_placeholders, Doc.isStr]

theorem C1_scanner_tests_dict_values_only (d : Doc) (path : String) :
    (∀ f ∈ find_placeholders d path,
       f.value.isStr = true ∧ f.placeholders = check_placeholder f.value ∧
         f.placeholders ≠ []) ∧
    (∀ (xs : List Doc) (i : Nat), (∀ x ∈ xs, x.isStr = true) → fpItems xs path i = []) ∧
    find_placeholders
        (Doc.dict [("a", Doc.str "<MASTER1_IP>"),
          ("b", Doc.dict [("c", Doc.str "<SSH_USER>")])]) "" =
      [⟨"a", Doc.str "<MASTER1_IP>", ["<MASTER\\d+_IP>"]⟩,
       ⟨"b.c", Doc.str "<SSH_USER>", ["<SSH_USER>"]⟩] :=
  ⟨fun f hf => fp_sound d path f hf,
   fun xs i h => fpItems_all_strings xs path i h, rfl⟩

theorem C1_counterexample :
    find_placeholders (Doc.dict [("a", Doc.arr [Doc.str "<BASTION_IP>"])]) "" = [] ∧
    check_placeholder (Doc.str "<BASTION_IP>") = ["<BASTION_IP>"] := ⟨rfl, rfl⟩

theorem C1_scanner_witness :
    fpItems [Doc.str "<BASTION_IP>"] "a" 0 = [] :=
  (C1_scanner_tests_dict_values_only Doc.null "a").2.1 [Doc.str "<BASTION_IP>"] 0
    (by simp [Doc.isStr])



@[simp]
theorem except_pure {α : Type} (a : α) : (pure a : Except String α) = Except.ok a := rfl

@[simp]
theorem except_pure_bind {α β : Type} (a : α) (f : α → Except String β) :
    (pure a : Except String α) >>= f = f a := rfl

/-- The error messages for the fields of `fields` missing from `hv`. -/
def missingMsgs (fields : List String) (hv : List (String × Doc))
    (msg : String → String) : List String :=
  fields.filterMap (fun f => if (lookupKey hv f).isSome then none else some (msg f))

theorem presenceFold (hv : List (String × Doc)) (msg : String → String) :
    ∀ (fields : List String) (acc : List String),
    (fields.foldlM (fun acc f => do
        let present ← pyContains (Doc.dict hv) f
        pure (if present then acc else acc ++ [msg f])) acc :
      Except String (List String)) =
      .ok (acc ++ missingMsgs fields hv msg)
  | [], acc => by simp [missingMsgs]
  | f :: rest, acc => by
      have hstep : ((f :: rest).foldlM (fun acc f => do
            let present ← pyContains (Doc.dict hv) f
            pure (if present then acc else acc ++ [msg f])) acc :
          Except String (List String)) =
          rest.foldlM (fun acc f => do
            let present ← pyContains (Doc.dict hv) f
            pure (if present then acc else acc ++ [msg f]))
            (if (lookupKey hv f).isSome then acc else acc ++ [msg f]) := rfl
      rw [hstep]
      by_cases h : (lookupKey hv f).isSome
      · rw [if_pos h, presenceFold hv msg rest acc]
        simp [missingMsgs, List.filterMap_cons, h]
      · rw [if_neg h, presenceFold hv msg rest (acc ++ [msg f])]
        simp [missingMsgs, List.filterMap_cons, h]

theorem groupsFold (ch : Doc) (eg wg : String → List String) :
    ∀ (groups : List String), (∀ g ∈ groups, checkGroup ch g = .ok (eg g, wg g)) →
    ∀ (acc : List String × List String),
    (groups.foldlM (fun acc g => do
        let p ← checkGroup ch g
        pure (acc.1 ++ p.1, acc.2 ++ p.2)) acc :
      Except String (List String × List String)) =
      .ok (acc.1 ++ (groups.map eg).flatten, acc.2 ++ (groups.map wg).flatten)
  | [], _, acc => by simp
  | g :: rest, h, acc => by
      rw [List.foldlM_cons, h g (by simp), except_bind_ok, except_pure_bind]
      rw [groupsFold ch eg wg rest (fun x hx => h x (by simp [hx])) _]
      simp [List.append_assoc]


theorem checkGroup_missing (ch : List (String × Doc)) (g : String)
    (h : lookupKey ch g = none) :
    checkGroup (Doc.dict ch) g = .ok (["Missing required group: " ++ g], []) := by
  unfold checkGroup
  rw [show pyContains (Doc.dict ch) g = Except.ok false by simp [pyContains, h]]
  rfl

theorem checkGroup_no_hosts (ch : List (String × Doc)) (g : String)
    (gse : List (String × Doc))
    (h1 : lookupKey ch g = some (Doc.dict gse))
    (h2 : lookupKey gse "hosts" = none) :
    checkGroup (Doc.dict ch) g =
      .ok (["Missing 'hosts' section in group '" ++ g ++ "'"], []) := by
  unfold checkGroup
  rw [show pyContains (Doc.dict ch) g = Except.ok true by simp [pyContains, h1]]
  rw [except_bind_ok]
  rw [show pyIndex (Doc.dict ch) g = Except.ok (Doc.dict gse) by simp [pyIndex, h1]]
  rw [except_bind_ok]
  rw [show pyContains (Doc.dict gse) "hosts" = Except.ok false by simp [pyContains, h2]]
  rfl

theorem checkGroup_empty_hosts (ch : List (String × Doc)) (g : String)
    (gse : List (String × Doc))
    (h1 : lookupKey ch g = some (Doc.dict gse))
    (h2 : lookupKey gse "hosts" = some (Doc.dict [])) :
    checkGroup (Doc.dict ch) g =
      .ok ([], ["Group '" ++ g ++ "' has no hosts defined"]) := by
  unfold checkGroup
  rw [show pyContains (Doc.dict ch) g = Except.ok true by simp [pyContains, h1]]
  rw [except_bind_ok]
  rw [show pyIndex (Doc.dict ch) g = Except.ok (Doc.dict gse) by simp [pyIndex, h1]]
  rw [except_bind_ok]
  rw [show pyContains (Doc.dict gse) "hosts" = Except.ok true by simp [pyContains, h2]]
  rw [except_bind_ok]
  rw [show pyIndex (Doc.dict gse) "hosts" = Except.ok (Doc.dict []) by simp [pyIndex, h2]]
  rfl

theorem checkHostFields_eq (g ht host : String) (hv : List (String × Doc))
    (hty : hostTypeOf g = some ht) :
    checkHostFields g host (Doc.dict hv) =
      .ok (missingMsgs (REQUIRED_HOST_FIELDS ht) hv
        (fun f => "Host '" ++ host ++ "' (" ++ g ++ ") missing required field: " ++ f)) := by
  unfold checkHostFields
  rw [hty]
  exact presenceFold hv _ (REQUIRED_HOST_FIELDS ht) []

theorem structure_decomposition (es alls vs : List (String × Doc)) (ch : Doc)
    (eg wg : String → List String)
    (h1 : lookupKey es "all" = some (Doc.dict alls))
    (h2 : lookupKey alls "vars" = some (Doc.dict vs))
    (h3 : lookupKey alls "children" = some ch)
    (hg : ∀ g ∈ REQUIRED_GROUPS, checkGroup ch g = .ok (eg g, wg g)) :
    validate_inventory_structure (Doc.dict es) =
      .ok (missingMsgs REQUIRED_VARS vs (fun v => "Missing required variable: " ++ v) ++
             (REQUIRED_GROUPS.map eg).flatten,
           (REQUIRED_GROUPS.map wg).flatten) := by
  unfold validate_inventory_structure
  rw [show pyContains (Doc.dict es) "all" = Except.ok true by simp [pyContains, h1]]
  rw [except_bind_ok]
  rw [show pyIndex (Doc.dict es) "all" = Except.ok (Doc.dict alls) by simp [pyIndex, h1]]
  rw [except_bind_ok]
  rw [show pyContains (Doc.dict alls) "vars" = Except.ok true by simp [pyContains, h2]]
  rw [except_bind_ok]
  simp only [Bool.not_true, if_neg, ite_false, Bool.false_eq_true, not_false_iff]
  rw [show pyIndex (Doc.dict alls) "vars" = Except.ok (Doc.dict vs) by simp [pyIndex, h2]]
  rw [except_bind_ok]
  rw [presenceFold vs (fun v => "Missing required variable: " ++ v) REQUIRED_VARS []]
  rw [except_bind_ok]
  rw [show pyContains (Doc.dict alls) "children" = Except.ok true by simp [pyContains, h3]]
  rw [except_bind_ok]
  simp only [Bool.not_true, Bool.false_eq_true, if_false]
  rw [show pyIndex (Doc.dict alls) "children" = Except.ok ch by simp [pyIndex, h3]]
  rw [except_bind_ok]
  rw [groupsFold ch eg wg REQUIRED_GROUPS hg _]
  simp


/-- C5: the group loop accumulates without early termination. -/
theorem C5_group_loop_accumulates :
    (∀ (ch : List (String × Doc)) (g : String), lookupKey ch g = none →
      checkGroup (Doc.dict ch) g = .ok (["Missing required group: " ++ g], [])) ∧
    (∀ (ch : List (String × Doc)) (g : String) (gse : List (String × Doc)),
      lookupKey ch g = some (Doc.dict gse) → lookupKey gse "hosts" = none →
      checkGroup (Doc.dict ch) g =
        .ok (["Missing 'hosts' section in group '" ++ g ++ "'"], [])) ∧
    (∀ (ch : List (String × Doc)) (g : String) (gse : List (String × Doc)),
      lookupKey ch g = some (Doc.dict gse) →
      lookupKey gse "hosts" = some (Doc.dict []) →
      checkGroup (Doc.dict ch) g =
        .ok ([], ["Group '" ++ g ++ "' has no hosts defined"])) ∧
    (∀ (es alls vs : List (String × Doc)) (ch : Doc) (eg wg : String → List String),
      lookupKey es "all" = some (Doc.dict alls) →
      lookupKey alls "vars" = some (Doc.dict vs) →
      lookupKey alls "children" = some ch →
      (∀ g ∈ REQUIRED_GROUPS, checkGroup ch g = .ok (eg g, wg g)) →
      validate_inventory_structure (Doc.dict es) =
        .ok (missingMsgs REQUIRED_VARS vs (fun v => "Missing required variable: " ++ v) ++
               (REQUIRED_GROUPS.map eg).flatten,
             (REQUIRED_GROUPS.map wg).flatten)) ∧
    (∀ (g ht host : String) (hv : List (String × Doc)) (f : String),
      hostTypeOf g = some ht → f ∈ REQUIRED_HOST_FIELDS ht → lookupKey hv f = none →
      checkHostFields g host (Doc.dict hv) =
        .ok (missingMsgs (REQUIRED_HOST_FIELDS ht) hv
          (fun f2 => "Host '" ++ host ++ "' (" ++ g ++ ") missing required field: " ++ f2)) ∧
      ("Host '" ++ host ++ "' (" ++ g ++ ") missing required field: " ++ f) ∈
        missingMsgs (REQUIRED_HOST_FIELDS ht) hv
          (fun f2 => "Host '" ++ host ++ "' (" ++ g ++ ") missing required field: " ++ f2)) := by
  refine ⟨checkGroup_missing, checkGroup_no_hosts, checkGroup_empty_hosts,
    structure_decomposition, ?_⟩
  intro g ht host hv f hty hf hnone
  refine ⟨checkHostFields_eq g ht host hv hty, ?_⟩
  exact List.mem_filterMap.mpr ⟨f, hf, by rw [hnone]; rfl⟩

/-- C5 witness: a group present with empty hosts yields a warning only. -/
theorem C5_group_loop_accumulates_witness :
    checkGroup (Doc.dict [("workers", Doc.dict [("hosts", Doc.dict [])])]) "workers" =
      .ok ([], ["Group 'workers' has no hosts defined"]) :=
  C5_group_loop_accumulates.2.2.1 [("workers", Doc.dict [("hosts", Doc.dict [])])]
    "workers" [("hosts", Doc.dict [])] rfl rfl



/-- A hosts mapping whose values are host-variable mappings. -/
def mkHostsDoc (hs : List (String × List (String × Doc))) : Doc :=
  Doc.dict (hs.map (fun p => (p.1, Doc.dict p.2)))

/-- The targets `get_target_hosts` builds from one group's hosts: hosts
carrying `ansible_host`, in mapping order. -/
def pickTargets (hs : List (String × List (String × Doc))) (ht : String) :
    List Target :=
  hs.filterMap (fun p => (lookupKey p.2 "ansible_host").map (fun ip => ⟨p.1, ip, ht⟩))

theorem collectStep (name : String) (hvs : List (String × Doc)) (ht : String)
    (acc : List Target) :
    ((do
      let hasIp ← pyContains (Doc.dict hvs) "ansible_host"
      if hasIp then do
        let ip ← pyIndex (Doc.dict hvs) "ansible_host"
        pure (acc ++ [⟨name, ip, ht⟩])
      else pure acc) : Except String (List Target)) =
    .ok (acc ++ (match lookupKey hvs "ansible_host" with
      | some ip => [⟨name, ip, ht⟩]
      | none => [])) := by
  cases hk : lookupKey hvs "ansible_host" <;> simp [pyContains, pyIndex, hk]

theorem collectFold (ht : String) :
    ∀ (hs : List (String × List (String × Doc))) (acc : List Target),
    ((hs.map (fun p => (p.1, Doc.dict p.2))).foldlM (fun acc kv => do
        let hasIp ← pyContains kv.2 "ansible_host"
        if hasIp then do
          let ip ← pyIndex kv.2 "ansible_host"
          pure (acc ++ [⟨kv.1, ip, ht⟩])
        else pure acc) acc : Except String (List Target)) =
      .ok (acc ++ pickTargets hs ht)
  | [], acc => by simp [pickTargets]
  | p :: rest, acc => by
      simp only [List.map_cons, List.foldlM_cons]
      rw [collectStep p.1 p.2 ht acc, except_bind_ok, collectFold ht rest _]
      cases hk : lookupKey p.2 "ansible_host" <;>
        simp [pickTargets, List.filterMap_cons, hk, List.append_assoc]

theorem collectGroup_eq (es alls ch : List (String × Doc))
    (gs : List (String × Doc)) (hs : List (String × List (String × Doc)))
    (g ht : String)
    (h1 : lookupKey es "all" = some (Doc.dict alls))
    (h2 : lookupKey alls "children" = some (Doc.dict ch))
    (h3 : lookupKey ch g = some (Doc.dict gs))
    (h4 : lookupKey gs "hosts" = some (mkHostsDoc hs)) :
    collectGroup (Doc.dict es) g ht = .ok (pickTargets hs ht) := by
  unfold collectGroup
  rw [show pyGetD (Doc.dict es) "all" (Doc.dict []) = Except.ok (Doc.dict alls) by
    simp [pyGetD, h1]]
  rw [except_bind_ok]
  rw [show pyGetD (Doc.dict alls) "children" (Doc.dict []) = Except.ok (Doc.dict ch) by
    simp [pyGetD, h2]]
  rw [except_bind_ok]
  rw [show pyContains (Doc.dict ch) g = Except.ok true by simp [pyContains, h3]]
  rw [except_bind_ok]
  simp only [Bool.not_true, Bool.false_eq_true, if_false]
  rw [show pyIndex (Doc.dict es) "all" = Except.ok (Doc.dict alls) by simp [pyIndex, h1]]
  rw [except_bind_ok]
  rw [show pyIndex (Doc.dict alls) "children" = Except.ok (Doc.dict ch) by
    simp [pyIndex, h2]]
  rw [except_bind_ok]
  rw [show pyIndex (Doc.dict ch) g = Except.ok (Doc.dict gs) by simp [pyIndex, h3]]
  rw [except_bind_ok]
  rw [show pyGetD (Doc.dict gs) "hosts" (Doc.dict []) = Except.ok (mkHostsDoc hs) by
    simp [pyGetD, h4]]
  rw [except_bind_ok]
  rw [show pyItems (mkHostsDoc hs) =
    Except.ok (hs.map (fun p => (p.1, Doc.dict p.2))) by simp [pyItems, mkHostsDoc]]
  rw [except_bind_ok, collectFold ht hs []]
  simp

/-- C10: target extraction is masters then workers, omitting hosts without
`ansible_host`; if every master/worker host lacks it the trust checker exits
on the empty target list. -/
theorem C10_target_extraction (es alls ch ms ws : List (String × Doc))
    (mh wh : List (String × List (String × Doc)))
    (h1 : lookupKey es "all" = some (Doc.dict alls))
    (h2 : lookupKey alls "children" = some (Doc.dict ch))
    (h3 : lookupKey ch "masters" = some (Doc.dict ms))
    (h4 : lookupKey ch "workers" = some (Doc.dict ws))
    (h5 : lookupKey ms "hosts" = some (mkHostsDoc mh))
    (h6 : lookupKey ws "hosts" = some (mkHostsDoc wh)) :
    get_target_hosts (Doc.dict es) =
      .ok (pickTargets mh "master" ++ pickTargets wh "worker") ∧
    ((∀ p ∈ mh, lookupKey p.2 "ansible_host" = none) →
     (∀ p ∈ wh, lookupKey p.2 "ansible_host" = none) →
     ∀ (pub : Option String) (auth : Target → SshAttempt) (khE : Bool)
       (kg : Target → KeygenAttempt),
       ssh_main true pub (Doc.dict es) auth khE kg = .ok SshOutcome.noTargets) := by
  have hget : get_target_hosts (Doc.dict es) =
      .ok (pickTargets mh "master" ++ pickTargets wh "worker") := by
    unfold get_target_hosts
    rw [collectGroup_eq es alls ch ms mh "masters" "master" h1 h2 h3 h5, except_bind_ok]
    rw [collectGroup_eq es alls ch ws wh "workers" "worker" h1 h2 h4 h6, except_bind_ok]
    rfl
  refine ⟨hget, fun hm hw pub auth khE kg => ?_⟩
  have hmn : pickTargets mh "master" = [] := by
    simp only [pickTargets, List.filterMap_eq_nil_iff]
    intro p hp
    rw [hm p hp]
    rfl
  have hwn : pickTargets wh "worker" = [] := by
    simp only [pickTargets, List.filterMap_eq_nil_iff]
    intro p hp
    rw [hw p hp]
    rfl
  unfold ssh_main
  rw [hget, hmn, hwn]
  rfl

/-- C10 witness: a populated inventory whose hosts all lack `ansible_host`. -/
theorem C10_target_extraction_witness :
    get_target_hosts (Doc.dict [("all", Doc.dict [("children", Doc.dict
      [("masters", Doc.dict [("hosts", mkHostsDoc [("m1", [("ansible_user", Doc.str "u")])])]),
       ("workers", Doc.dict [("hosts", mkHostsDoc [("w1", [("ansible_user", Doc.str "u")])])])])])]) =
      .ok [] ∧
    ssh_main true (some "ssh-ed25519 AAAA") (Doc.dict [("all", Doc.dict [("children", Doc.dict
      [("masters", Doc.dict [("hosts", mkHostsDoc [("m1", [("ansible_user", Doc.str "u")])])]),
       ("workers", Doc.dict [("hosts", mkHostsDoc [("w1", [("ansible_user", Doc.str "u")])])])])])])
      (fun _ => SshAttempt.timedOut) false (fun _ => KeygenAttempt.raised) =
      .ok SshOutcome.noTargets := by
  have h := C10_target_extraction
    [("all", Doc.dict [("children", Doc.dict
      [("masters", Doc.dict [("hosts", mkHostsDoc [("m1", [("ansible_user", Doc.str "u")])])]),
       ("workers", Doc.dict [("hosts", mkHostsDoc [("w1", [("ansible_user", Doc.str "u")])])])])])]
    [("children", Doc.dict
      [("masters", Doc.dict [("hosts", mkHostsDoc [("m1", [("ansible_user", Doc.str "u")])])]),
       ("workers", Doc.dict [("hosts", mkHostsDoc [("w1", [("ansible_user", Doc.str "u")])])])])]
    [("masters", Doc.dict [("hosts", mkHostsDoc [("m1", [("ansible_user", Doc.str "u")])])]),
     ("workers", Doc.dict [("hosts", mkHostsDoc [("w1", [("ansible_user", Doc.str "u")])])])]
    [("hosts", mkHostsDoc [("m1", [("ansible_user", Doc.str "u")])])]
    [("hosts", mkHostsDoc [("w1", [("ansible_user", Doc.str "u")])])]
    [("m1", [("ansible_user", Doc.str "u")])]
    [("w1", [("ansible_user", Doc.str "u")])]
    rfl rfl rfl rfl rfl rfl
  exact ⟨h.1, h.2 (by intro p hp; fin_cases hp <;> rfl)
    (by intro p hp; fin_cases hp <;> rfl)
    (some "ssh-ed25519 AAAA") (fun _ => SshAttempt.timedOut) false
    (fun _ => KeygenAttempt.raised)⟩



theorem checkHostIpField_nonstring (host : String) (hv : List (String × Doc))
    (f : String) (v : Doc) (hk : lookupKey hv f = some v) (hs : v.isStr = false) :
    checkHostIpField host (Doc.dict hv) f = .ok [] := by
  unfold checkHostIpField
  rw [show pyContains (Doc.dict hv) f = Except.ok true by simp [pyContains, hk]]
  rw [except_bind_ok]
  simp only [Bool.not_true, Bool.false_eq_true, if_false]
  rw [show pyIndex (Doc.dict hv) f = Except.ok v by simp [pyIndex, hk]]
  rw [except_bind_ok]
  cases v with
  | str s => simp [Doc.isStr] at hs
  | int n => rfl
  | bool b => rfl
  | null => rfl
  | dict es => rfl
  | arr xs => rfl

theorem checkHostIpField_nostring (host : String) (hv : List (String × Doc))
    (f : String) (h : ∀ v, lookupKey hv f = some v → v.isStr = false) :
    checkHostIpField host (Doc.dict hv) f = .ok [] := by
  cases hk : lookupKey hv f with
  | some v => exact checkHostIpField_nonstring host hv f v hk (h v hk)
  | none =>
      unfold checkHostIpField
      rw [show pyContains (Doc.dict hv) f = Except.ok false by simp [pyContains, hk]]
      rfl

theorem hostIpErrs_nostring (host : String) (hv : List (String × Doc))
    (h : ∀ f v, lookupKey hv f = some v → v.isStr = false) :
    hostIpErrs host (Doc.dict hv) = .ok [] := by
  unfold hostIpErrs
  rw [checkHostIpField_nostring host hv "ansible_host" (h _), except_bind_ok]
  rw [checkHostIpField_nostring host hv "internal_ip" (h _), except_bind_ok]
  rw [checkHostIpField_nostring host hv "mgmt_ip" (h _), except_bind_ok]
  rw [checkHostIpField_nostring host hv "prod_data_ip" (h _), except_bind_ok]
  rfl

theorem checkNetVar_nostring (vs : List (String × Doc)) (var : String)
    (h : ∀ v, lookupKey vs var = some v → v.isStr = false) :
    checkNetVar (Doc.dict vs) var = .ok [] := by
  unfold checkNetVar
  cases hk : lookupKey vs var with
  | none =>
      rw [show pyContains (Doc.dict vs) var = Except.ok false by simp [pyContains, hk]]
      rfl
  | some v =>
      rw [show pyContains (Doc.dict vs) var = Except.ok true by simp [pyContains, hk]]
      rw [except_bind_ok]
      simp only [if_true, ite_true]
      rw [show pyIndex (Doc.dict vs) var = Except.ok v by simp [pyIndex, hk]]
      rw [except_bind_ok]
      have hns := h v hk
      cases v with
      | str s => simp [Doc.isStr] at hns
      | int n => rfl
      | bool b => rfl
      | null => rfl
      | dict es => rfl
      | arr xs => rfl

theorem checkIpVar_nostring (vs : List (String × Doc)) (var : String)
    (h : ∀ v, lookupKey vs var = some v → v.isStr = false) :
    checkIpVar (Doc.dict vs) var = .ok [] := by
  unfold checkIpVar
  cases hk : lookupKey vs var with
  | none =>
      rw [show pyContains (Doc.dict vs) var = Except.ok false by simp [pyContains, hk]]
      rfl
  | some v =>
      rw [show pyContains (Doc.dict vs) var = Except.ok true by simp [pyContains, hk]]
      rw [except_bind_ok]
      simp only [if_true, ite_true]
      rw [show pyIndex (Doc.dict vs) var = Except.ok v by simp [pyIndex, hk]]
      rw [except_bind_ok]
      have hns := h v hk
      cases v with
      | str s => simp [Doc.isStr] at hns
      | int n => rfl
      | bool b => rfl
      | null => rfl
      | dict es => rfl
      | arr xs => rfl

theorem appendFoldNil {α : Type} (f : α → Except String (List String)) :
    ∀ (l : List α), (∀ x ∈ l, f x = .ok []) → ∀ (acc : List String),
    (l.foldlM (fun acc x => do
        let e ← f x
        pure (acc ++ e)) acc : Except String (List String)) = .ok acc
  | [], _, acc => by simp
  | x :: rest, h, acc => by
      rw [List.foldlM_cons, h x (by simp), except_bind_ok, except_pure_bind]
      rw [appendFoldNil f rest (fun y hy => h y (by simp [hy])) _]
      simp


/-- A group section whose hosts (if any) carry only non-string field values
produces no IP-format errors. -/
theorem groupIpErrs_nostring (gse : List (String × Doc))
    (h : lookupKey gse "hosts" = none ∨
      ∃ hs : List (String × Doc), lookupKey gse "hosts" = some (Doc.dict hs) ∧
        ∀ q ∈ hs, ∃ hve : List (String × Doc), q.2 = Doc.dict hve ∧
          ∀ f v, lookupKey hve f = some v → v.isStr = false) :
    groupIpErrs (Doc.dict gse) = .ok [] := by
  unfold groupIpErrs
  rcases h with hk | ⟨hs, hk, hh⟩
  · rw [show pyContains (Doc.dict gse) "hosts" = Except.ok false by simp [pyContains, hk]]
    rfl
  · rw [show pyContains (Doc.dict gse) "hosts" = Except.ok true by simp [pyContains, hk]]
    rw [except_bind_ok]
    simp only [Bool.not_true, Bool.false_eq_true, if_false]
    rw [show pyIndex (Doc.dict gse) "hosts" = Except.ok (Doc.dict hs) by simp [pyIndex, hk]]
    rw [except_bind_ok]
    rw [show pyItems (Doc.dict hs) = Except.ok hs from rfl]
    rw [except_bind_ok]
    exact appendFoldNil (fun kv => hostIpErrs kv.1 kv.2) hs
      (by
        intro q hq
        rcases hh q hq with ⟨hve, hqe, hvns⟩
        show hostIpErrs q.1 q.2 = Except.ok []
        rw [hqe]
        exact hostIpErrs_nostring q.1 hve hvns) []

/-- `validate_ip_addresses` reports nothing on a document all of whose
designated values are non-strings. -/
theorem validate_ip_addresses_nostring (es alls vs ch : List (String × Doc))
    (h1 : lookupKey es "all" = some (Doc.dict alls))
    (h2 : lookupKey alls "vars" = some (Doc.dict vs))
    (h3 : lookupKey alls "children" = some (Doc.dict ch))
    (hvs : ∀ var v, lookupKey vs var = some v → v.isStr = false)
    (hch : ∀ p ∈ ch, ∃ gse : List (String × Doc), p.2 = Doc.dict gse ∧
      (lookupKey gse "hosts" = none ∨
        ∃ hs : List (String × Doc), lookupKey gse "hosts" = some (Doc.dict hs) ∧
          ∀ q ∈ hs, ∃ hve : List (String × Doc), q.2 = Doc.dict hve ∧
            ∀ f v, lookupKey hve f = some v → v.isStr = false)) :
    validate_ip_addresses (Doc.dict es) = .ok ([], []) := by
  unfold validate_ip_addresses
  rw [show pyGetD (Doc.dict es) "all" (Doc.dict []) = Except.ok (Doc.dict alls) by
    simp [pyGetD, h1]]
  rw [except_bind_ok]
  rw [show pyGetD (Doc.dict alls) "children" (Doc.dict []) = Except.ok (Doc.dict ch) by
    simp [pyGetD, h3]]
  rw [except_bind_ok]
  rw [show pyGetD (Doc.dict alls) "vars" (Doc.dict []) = Except.ok (Doc.dict vs) by
    simp [pyGetD, h2]]
  rw [except_bind_ok]
  rw [appendFoldNil (fun v => checkNetVar (Doc.dict vs) v) network_vars
    (fun v _ => checkNetVar_nostring vs v (hvs v)) []]
  rw [except_bind_ok]
  rw [appendFoldNil (fun v => checkIpVar (Doc.dict vs) v) ip_vars
    (fun v _ => checkIpVar_nostring vs v (hvs v)) []]
  rw [except_bind_ok]
  rw [show pyItems (Doc.dict ch) = Except.ok ch from rfl]
  rw [except_bind_ok]
  rw [appendFoldNil (fun kv => groupIpErrs kv.2) ch
    (by
      intro p hp
      rcases hch p hp with ⟨gse, hpe, hrest⟩
      show groupIpErrs p.2 = Except.ok []
      rw [hpe]
      exact groupIpErrs_nostring gse hrest) []]
  rfl

/-- C9: a non-string value in any designated address field is never
reported by the semantic IP validator. -/
theorem C9_nonstring_values_never_flagged :
    (∀ (host : String) (hv : List (String × Doc)) (f : String) (v : Doc),
      lookupKey hv f = some v → v.isStr = false →
      checkHostIpField host (Doc.dict hv) f = .ok []) ∧
    (∀ (vs : List (String × Doc)) (var : String) (v : Doc),
      lookupKey vs var = some v → v.isStr = false →
      checkNetVar (Doc.dict vs) var = .ok [] ∧ checkIpVar (Doc.dict vs) var = .ok []) ∧
    (∀ (es alls vs ch : List (String × Doc)),
      lookupKey es "all" = some (Doc.dict alls) →
      lookupKey alls "vars" = some (Doc.dict vs) →
      lookupKey alls "children" = some (Doc.dict ch) →
      (∀ var v, lookupKey vs var = some v → v.isStr = false) →
      (∀ p ∈ ch, ∃ gse : List (String × Doc), p.2 = Doc.dict gse ∧
        (lookupKey gse "hosts" = none ∨
          ∃ hs : List (String × Doc), lookupKey gse "hosts" = some (Doc.dict hs) ∧
            ∀ q ∈ hs, ∃ hve : List (String × Doc), q.2 = Doc.dict hve ∧
              ∀ f v, lookupKey hve f = some v → v.isStr = false)) →
      validate_ip_addresses (Doc.dict es) = .ok ([], [])) := by
  refine ⟨fun host hv f v hk hs => checkHostIpField_nonstring host hv f v hk hs,
    fun vs var v hk hs => ⟨?_, ?_⟩, validate_ip_addresses_nostring⟩
  · exact checkNetVar_nostring vs var (fun w hw => by rw [hk] at hw; cases hw; exact hs)
  · exact checkIpVar_nostring vs var (fun w hw => by rw [hk] at hw; cases hw; exact hs)

/-- C9 witness: an integer `ansible_host` and an integer gateway variable are
not flagged; a document whose designated values are all integers yields no
IP errors. -/
theorem C9_nonstring_values_never_flagged_witness :
    checkHostIpField "h1" (Doc.dict [("ansible_host", Doc.int 5)]) "ansible_host" =
      .ok [] ∧
    validate_ip_addresses (Doc.dict [("all", Doc.dict
      [("vars", Doc.dict [("control_vlan_gateway", Doc.int 7)]),
       ("children", Doc.dict [("masters", Doc.dict [("hosts", Doc.dict
         [("m1", Doc.dict [("ansible_host", Doc.int 5)])])])])])]) = .ok ([], []) := by
  constructor
  · exact C9_nonstring_values_never_flagged.1 "h1" [("ansible_host", Doc.int 5)]
      "ansible_host" (Doc.int 5) rfl rfl
  · refine C9_nonstring_values_never_flagged.2.2
      [("all", Doc.dict [("vars", Doc.dict [("control_vlan_gateway", Doc.int 7)]),
        ("children", Doc.dict [("masters", Doc.dict [("hosts", Doc.dict
          [("m1", Doc.dict [("ansible_host", Doc.int 5)])])])])])]
      [("vars", Doc.dict [("control_vlan_gateway", Doc.int 7)]),
       ("children", Doc.dict [("masters", Doc.dict [("hosts", Doc.dict
         [("m1", Doc.dict [("ansible_host", Doc.int 5)])])])])]
      [("control_vlan_gateway", Doc.int 7)]
      [("masters", Doc.dict [("hosts", Doc.dict
        [("m1", Doc.dict [("ansible_host", Doc.int 5)])])])]
      rfl rfl rfl ?_ ?_
    · intro var v hv
      simp [lookupKey] at hv
      rw [← hv.2]
      rfl
    · intro p hp
      rcases List.mem_singleton.mp hp with rfl
      refine ⟨[("hosts", Doc.dict [("m1", Doc.dict [("ansible_host", Doc.int 5)])])], rfl,
        Or.inr ⟨[("m1", Doc.dict [("ansible_host", Doc.int 5)])], rfl, ?_⟩⟩
      intro q hq
      rcases List.mem_singleton.mp hq with rfl
      refine ⟨[("ansible_host", Doc.int 5)], rfl, ?_⟩
      intro f v hv
      simp [lookupKey] at hv
      rw [← hv.2]
      rfl



set_option maxRecDepth 4096

theorem octRepr : ∀ n : Nat, n ≤ 255 → parse_octet (Nat.repr n).data = some n := by decide

theorem octDigits : ∀ n : Nat, n ≤ 255 → ((Nat.repr n).data.all Char.isDigit) = true := by
  decide

theorem prefRepr : ∀ p : Nat, p ≤ 32 → prefixFromPrefixString 32 (Nat.repr p).data = some p := by
  decide


theorem splitOnChar_no_sep (sep : Char) (cs : List Char)
    (h : ∀ c ∈ cs, ¬ c = sep) : splitOnChar sep cs = [cs] := by
  induction cs with
  | nil => rfl
  | cons c t ih =>
      simp only [splitOnChar]
      rw [if_neg (h c (by simp))]
      rw [ih (fun x hx => h x (by simp [hx]))]

theorem splitOnChar_append (sep : Char) (xs ys : List Char)
    (h : ∀ c ∈ xs, ¬ c = sep) :
    splitOnChar sep (xs ++ sep :: ys) = xs :: splitOnChar sep ys := by
  induction xs with
  | nil => simp [splitOnChar]
  | cons c t ih =>
      simp only [List.cons_append, splitOnChar, List.append_eq]
      rw [if_neg (h c (by simp))]
      rw [ih (fun x hx => h x (by simp [hx]))]


/-- The rendered dotted-quad string of four octet values. -/
def dottedQuad (a b c d : Nat) : String :=
  Nat.repr a ++ "." ++ Nat.repr b ++ "." ++ Nat.repr c ++ "." ++ Nat.repr d

theorem digits_no_char (cs : List Char) (h : cs.all Char.isDigit = true) (x : Char)
    (hx : x.isDigit = false) : ∀ c ∈ cs, ¬ c = x := by
  intro c hc he
  have hd := (List.all_eq_true.mp h) c hc
  rw [he, hx] at hd
  cases hd

theorem digits_not_contains (cs : List Char) (h : cs.all Char.isDigit = true) (x : Char)
    (hx : x.isDigit = false) : cs.contains x = false := by
  rcases Bool.eq_false_or_eq_true (cs.contains x) with ht | hf
  · exact absurd rfl (digits_no_char cs h x hx x (by simpa using ht))
  · exact hf

theorem dottedQuad_data (a b c d : Nat) :
    (dottedQuad a b c d).data =
      (Nat.repr a).data ++ '.' :: ((Nat.repr b).data ++ '.' ::
        ((Nat.repr c).data ++ '.' :: (Nat.repr d).data)) := by
  simp [dottedQuad, String.data_append]

theorem quadData_chars (a b c d : Nat) :
    ∀ ch ∈ (dottedQuad a b c d).data,
      ch ∈ (Nat.repr a).data ∨ ch ∈ (Nat.repr b).data ∨ ch ∈ (Nat.repr c).data ∨
        ch ∈ (Nat.repr d).data ∨ ch = '.' := by
  rw [dottedQuad_data]
  intro ch hch
  simp only [List.mem_append, List.mem_cons] at hch
  tauto

theorem quadData_no_char (a b c d : Nat) (ha : a ≤ 255) (hb : b ≤ 255) (hc : c ≤ 255)
    (hd : d ≤ 255) (x : Char) (hx : x.isDigit = false) (hdot : ¬ x = '.') :
    ∀ ch ∈ (dottedQuad a b c d).data, ¬ ch = x := by
  intro ch hch he
  rcases quadData_chars a b c d ch hch with h | h | h | h | h
  · exact digits_no_char _ (octDigits a ha) x hx ch h he
  · exact digits_no_char _ (octDigits b hb) x hx ch h he
  · exact digits_no_char _ (octDigits c hc) x hx ch h he
  · exact digits_no_char _ (octDigits d hd) x hx ch h he
  · exact hdot (by rw [← he]; exact h)

theorem no_char_not_contains (cs : List Char) (x : Char) (h : ∀ c ∈ cs, ¬ c = x) :
    cs.contains x = false := by
  rcases Bool.eq_false_or_eq_true (cs.contains x) with ht | hf
  · exact absurd rfl (h x (by simpa using ht))
  · exact hf

theorem ipv4_dottedQuad (a b c d : Nat) (ha : a ≤ 255) (hb : b ≤ 255) (hc : c ≤ 255)
    (hd : d ≤ 255) :
    parseIPv4Address (dottedQuad a b c d).data =
      some (((a * 256 + b) * 256 + c) * 256 + d) := by
  unfold parseIPv4Address
  rw [no_char_not_contains _ '/' (quadData_no_char a b c d ha hb hc hd '/' rfl (by decide))]
  simp only [Bool.false_eq_true, if_false]
  unfold ipv4_int_from_string
  rw [dottedQuad_data]
  rw [splitOnChar_append '.' _ _ (digits_no_char _ (octDigits a ha) '.' rfl)]
  rw [splitOnChar_append '.' _ _ (digits_no_char _ (octDigits b hb) '.' rfl)]
  rw [splitOnChar_append '.' _ _ (digits_no_char _ (octDigits c hc) '.' rfl)]
  rw [splitOnChar_no_sep '.' _ (digits_no_char _ (octDigits d hd) '.' rfl)]
  simp [octRepr a ha, octRepr b hb, octRepr c hc, octRepr d hd]

theorem ipv4_network_quad (a b c d p : Nat) (ha : a ≤ 255) (hb : b ≤ 255)
    (hc : c ≤ 255) (hd : d ≤ 255) (hp : p ≤ 32) :
    parseIPv4NetworkOk (dottedQuad a b c d ++ "/" ++ Nat.repr p).data = true := by
  have hdata : (dottedQuad a b c d ++ "/" ++ Nat.repr p).data =
      (dottedQuad a b c d).data ++ '/' :: (Nat.repr p).data := by
    simp [String.data_append]
  unfold parseIPv4NetworkOk
  rw [hdata]
  rw [splitOnChar_append '/' _ _ (quadData_no_char a b c d ha hb hc hd '/' rfl (by decide))]
  rw [splitOnChar_no_sep '/' _
    (digits_no_char _ (octDigits p (le_trans hp (by decide))) '/' rfl)]
  have hmask : makeNetmask4 (Nat.repr p).data = true := by
    unfold makeNetmask4
    rw [prefRepr p hp]
  simp [ipv4_dottedQuad a b c d ha hb hc hd, hmask]

/-- C6: the address validator accepts every rendered dotted quad, the
network validator accepts every rendered quad with a prefix length at most
32 even when host bits are set, an IPv6 literal is accepted, and the
malformed examples are rejected. -/
theorem C6_ip_validators :
    (∀ a b c d p : Nat, a ≤ 255 → b ≤ 255 → c ≤ 255 → d ≤ 255 → p ≤ 32 →
      validate_ip_address (dottedQuad a b c d) = true ∧
      validate_ip_network (dottedQuad a b c d ++ "/" ++ Nat.repr p) = true) ∧
    validate_ip_address "::1" = true ∧
    validate_ip_network "10.0.0.0/99" = false ∧
    validate_ip_address "999.1.1.1" = false := by
  refine ⟨?_, rfl, by decide, rfl⟩
  intro a b c d p ha hb hc hd hp
  constructor
  · unfold validate_ip_address
    rw [ipv4_dottedQuad a b c d ha hb hc hd]
    rfl
  · unfold validate_ip_network
    rw [ipv4_network_quad a b c d p ha hb hc hd hp]
    rfl

/-- C6 witness: `10.0.0.5` and `10.0.0.5/24` (host bits set) are accepted. -/
theorem C6_ip_validators_witness :
    validate_ip_address (dottedQuad 10 0 0 5) = true ∧
    validate_ip_network (dottedQuad 10 0 0 5 ++ "/" ++ Nat.repr 24) = true :=
  C6_ip_validators.1 10 0 0 5 24 (by decide) (by decide) (by decide) (by decide)
    (by decide)


end RKE2
